import Mathlib

/-!
Verification of the update ingestion and resilience engine of the
telegram-rustevalbot repository: a shallow embedding of the relevant parts
of `src/bot.rs` (the `UpdateStream` long-poll fetch loop, cursor tracking
and error recovery), `src/bot_runner.rs` (the `BotRun` driver with retry
counting and exponential backoff), `src/shutdown.rs` (the shutdown
broadcaster) and `src/task_tracker.rs` (the in-flight task accounting).

Pure data is translated directly; the asynchronous parts are embedded by
passing the outcome of each poll of the pending request explicitly as an
oracle list, with one entry per resolution of the in-flight future, and by
modelling the message channel of the task tracker as an explicit list of
messages in queue order.
-/

/-- Minimal generic JSON value, standing for `serde_json::Value`.  Objects
are association lists in field order. -/
inductive Json where
  | null
  | bool (b : Bool)
  | int (n : Int)
  | str (s : String)
  | arr (elems : List Json)
  | obj (fields : List (String × Json))

/-- Lookup of a key in a JSON object map (`serde_json::Map::get`). -/
def jsonGet (fields : List (String × Json)) (key : String) : Option Json :=
  (fields.find? (fun p => p.1 == key)).map (fun p => p.2)

/-- `Value::as_bool`. -/
def Json.as_bool : Json → Option Bool
  | .bool b => some b
  | _ => none

/-- `Value::as_i64`: integer JSON values, as mathematical integers. -/
def Json.as_i64 : Json → Option Int
  | .int n => some n
  | _ => none

/-- `Value::as_array`. -/
def Json.as_array : Json → Option (List Json)
  | .arr a => some a
  | _ => none

/-- `Value::as_object`. -/
def Json.as_object : Json → Option (List (String × Json))
  | .obj o => some o
  | _ => none

/-- A Telegram `Update`, reduced to the only part the engine reads: its
`update_id` (an `i64`, modelled as `Int`). -/
structure Update where
  update_id : Int
deriving DecidableEq

/-- The error type of `src/bot.rs`.  For `Error::Parse`, the engine only
ever uses the result of re-parsing the raw bytes as generic JSON
(`serde_json::from_slice::<JsonValue>`), so the payload is embedded as
that parse result: `none` when the bytes are not valid JSON at all. -/
inductive Error where
  | Request
  | Api
  | Timer
  | Parse (data : Option Json)

/-- Outcome of one poll of the pending `Timeout`-wrapped request future in
`UpdateStream::poll` (`request.poll()` at src/bot.rs:241): completion with
a batch, not ready, an inner error (`err.is_inner()`), a timer error
(`err.is_timer()`), or the elapsed long-poll timeout (`err.is_elapsed()`). -/
inductive ReqPoll where
  | ready (updates : List Update)
  | notReady
  | inner (e : Error)
  | timer
  | elapsed

/-- The parameters of one issued `getUpdates` request (src/bot.rs:230-239):
the `offset` (cursor), the server-side `timeout` parameter in seconds, and
the client-side `Timeout::new` duration in seconds. -/
structure FetchParams where
  offset : Option Int
  timeout : Nat
  client_timeout_secs : Nat
deriving DecidableEq

/-- `TELEGRAM_TIMEOUT_SECS` (src/bot.rs:213). -/
def TELEGRAM_TIMEOUT_SECS : Nat := 5

/-- State of `UpdateStream` (src/bot.rs:197-203).  `current_request` is
`true` when a pending future is stored; the stop signal is the shutdown
receiver, `true` once it has fired.  `fetches` is ghost state recording
the parameters of every request the loop has issued, in order. -/
structure UpdateStream where
  update_id : Option Int
  buffer : List Update
  current_request : Bool
  stop_signal_fired : Bool
  fetches : List FetchParams

/-- Construction of the `GetUpdates` request in `UpdateStream::poll`
(src/bot.rs:230-239): `offset` is set from `update_id` when present, the
server `timeout` parameter is `TELEGRAM_TIMEOUT_SECS`, and the future is
wrapped in a client-side `Timeout` of `TELEGRAM_TIMEOUT_SECS` seconds. -/
def mkFetch (s : UpdateStream) : FetchParams :=
  { offset := s.update_id
    timeout := TELEGRAM_TIMEOUT_SECS
    client_timeout_secs := TELEGRAM_TIMEOUT_SECS }

/-- `UpdateStream::bump_update_id` (src/bot.rs:270-272). -/
def UpdateStream.bump_update_id (s : UpdateStream) (update_id : Int) : UpdateStream :=
  { s with update_id := some (update_id + 1) }

/-- The id extraction of `UpdateStream::may_recover_from_error`
(src/bot.rs:274-300): for a `Parse` error whose bytes re-parse as a JSON
object with a true `"ok"` flag, the `"update_id"` integer of the last
element of the `"result"` array, if all of that is present. -/
def recoverId (error : Error) : Option Int :=
  match error with
  | .Parse (some value) =>
    match value with
    | .obj map =>
      if ((jsonGet map "ok").bind Json.as_bool).getD false then
        (((((jsonGet map "result").bind Json.as_array).bind
            List.getLast?).bind Json.as_object).bind
            (fun m => jsonGet m "update_id")).bind Json.as_i64
      else none
    | _ => none
  | _ => none

/-- `UpdateStream::may_recover_from_error` (src/bot.rs:274-301): bump the
cursor past the extracted id when the recovery parse succeeds, otherwise
leave the stream untouched. -/
def UpdateStream.may_recover_from_error (s : UpdateStream) (error : Error) : UpdateStream :=
  match recoverId error with
  | some v => s.bump_update_id v
  | none => s

/-- The `self.current_request.take().unwrap_or_else(...)` step of
`UpdateStream::poll` (src/bot.rs:230-240): reuse the pending request if
one exists, otherwise build and issue a new one (recorded in `fetches`). -/
def UpdateStream.issueRequest (s : UpdateStream) : UpdateStream :=
  if s.current_request then s
  else { s with current_request := true, fetches := s.fetches ++ [mkFetch s] }

/-- Result of one call to `UpdateStream::poll`. -/
inductive PollOut where
  | readySome (u : Update)
  | readyNone
  | notReady
  | err (e : Error)

/-- The inner `loop` of `UpdateStream::poll` (src/bot.rs:225-265), driven
by the oracle of request-poll outcomes.  Pops a buffered update first; when
the buffer is empty it takes or issues the request and resolves it with the
next oracle entry: a completed batch bumps the cursor past the last update
id and refills the buffer, `notReady` stores the request back, an inner
error runs recovery and surfaces the error, a timer error surfaces
`Error::Timer`, and an elapsed long-poll timeout loops back for a new
fetch.  Returns `none` if the oracle runs out. -/
def UpdateStream.pollLoop :
    UpdateStream → List ReqPoll → Option (UpdateStream × PollOut × List ReqPoll)
  | s, [] =>
    match s.buffer with
    | u :: rest => some ({ s with buffer := rest }, .readySome u, [])
    | [] => none
  | s, o :: rest =>
    match s.buffer with
    | u :: r => some ({ s with buffer := r }, .readySome u, o :: rest)
    | [] =>
      let s1 := s.issueRequest
      match o with
      | .ready updates =>
        let s2 :=
          match updates.getLast? with
          | some last => s1.bump_update_id last.update_id
          | none => s1
        UpdateStream.pollLoop { s2 with buffer := updates, current_request := false } rest
      | .notReady => some (s1, .notReady, rest)
      | .inner e =>
        some (UpdateStream.may_recover_from_error
                { s1 with current_request := false } e, .err e, rest)
      | .timer => some ({ s1 with current_request := false }, .err .Timer, rest)
      | .elapsed => UpdateStream.pollLoop { s1 with current_request := false } rest

/-- `UpdateStream::poll` (src/bot.rs:219-266): the stop signal is checked
first; once it has fired the stream ends immediately, otherwise the fetch
loop runs.  Also returns the unconsumed part of the oracle. -/
def UpdateStream.poll (s : UpdateStream) (oracle : List ReqPoll) :
    Option (UpdateStream × PollOut × List ReqPoll) :=
  if s.stop_signal_fired then some (s, .readyNone, oracle)
  else s.pollLoop oracle

/-- State of `BotRun` (src/bot_runner.rs:63-71).  `delay` holds the
currently scheduled backoff delay in seconds.  `handled`, `reported` and
`delays` are ghost state recording the updates dispatched to the handler,
the errors passed to `report_error`, and the backoff delays scheduled. -/
structure BotRun where
  stream : UpdateStream
  retried : Nat
  delay : Option Nat
  handled : List Update
  reported : List Error
  delays : List Nat

/-- The backoff delay computation `Duration::from_secs(1 << self.retried)`
(src/bot_runner.rs:120), with the `usize` shift taken modulo `2 ^ 64`. -/
def delay_secs (retried : Nat) : Nat := (1 <<< retried) % 2 ^ 64

/-- Result of one call to `BotRun::poll`: pending, stream finished
(`Ok(Async::Ready(()))`), or terminal failure (`Err(())`). -/
inductive RunOut where
  | notReady
  | done
  | fatal
deriving DecidableEq

/-- `isFatal` discriminates the terminal failure result. -/
def isFatal : RunOut → Bool
  | .fatal => true
  | _ => false

/-- The `loop` of `BotRun::poll` (src/bot_runner.rs:80-127), with `fuel`
bounding the number of iterations.  A delivered update resets `retried` to
zero, dispatches the update and loops; end of stream resets `retried` and
completes; `NotReady` breaks; an error is reported, then either terminates
the future (when `retried >= 13`) or schedules the backoff delay
`1 << retried`, increments `retried`, and breaks `NotReady` (the freshly
created sleep is not ready). -/
def BotRun.poll : Nat → BotRun → List ReqPoll → Option (BotRun × RunOut × List ReqPoll)
  | 0, _, _ => none
  | fuel + 1, b, oracle =>
    match b.stream.poll oracle with
    | none => none
    | some (s, out, rest) =>
      match out with
      | .notReady => some ({ b with stream := s }, .notReady, rest)
      | .readySome u =>
        BotRun.poll fuel
          { b with stream := s, retried := 0, handled := b.handled ++ [u] } rest
      | .readyNone => some ({ b with stream := s, retried := 0 }, .done, rest)
      | .err e =>
        let b1 := { b with stream := s, reported := b.reported ++ [e] }
        if 13 ≤ b1.retried then some (b1, .fatal, rest)
        else
          some ({ b1 with delay := some (delay_secs b1.retried)
                          delays := b1.delays ++ [delay_secs b1.retried]
                          retried := b1.retried + 1 }, .notReady, rest)

/-- Total number of updates carried by an oracle, used to bound fuel. -/
def oracleUpdates (oracle : List ReqPoll) : Nat :=
  oracle.foldl (fun n o => n + match o with | .ready us => us.length | _ => 0) 0

/-- Repeated polling of `BotRun` by the executor: each round models the
executor re-invoking `BotRun::poll` after the pending I/O or the backoff
delay has completed (so a pending `delay` is polled `Ready` and cleared,
src/bot_runner.rs:82-92), with that round's oracle of request outcomes. -/
def BotRun.runRounds : BotRun → List (List ReqPoll) → Option (BotRun × RunOut)
  | b, [] => some (b, .notReady)
  | b, oracle :: rounds =>
    let b1 := { b with delay := none }
    match BotRun.poll
        (oracle.length + oracleUpdates oracle + b1.stream.buffer.length + 1) b1 oracle with
    | none => none
    | some (b2, .notReady, _) => BotRun.runRounds b2 rounds
    | some (b2, out, _) => some (b2, out)

/-- Cursor ordering: an absent cursor (fresh stream, no offset sent)
precedes everything; present cursors compare as integers. -/
def cursorLe : Option Int → Option Int → Prop
  | none, _ => True
  | some _, none => False
  | some a, some b => a ≤ b

/-- The id, if any, by which a single request outcome advances the cursor:
the last update id of a completed batch, or the recovery id extracted from
an inner error. -/
def advId : ReqPoll → Option Int
  | .ready us => us.getLast?.map (fun u => u.update_id)
  | .inner e => recoverId e
  | _ => none

/-- All cursor-advancing ids of an oracle, in order. -/
def advIds (oracle : List ReqPoll) : List Int := oracle.filterMap advId

/-- State of the `Shutdown` broadcaster (src/shutdown.rs:5-9): the queue of
pending notification senders, `none` once shutdown has been notified.
Waiters are identified by the ghost counter `next`; `resolved` is ghost
state listing the waiters whose sender has fired. -/
structure Shutdown where
  queue : Option (List Nat)
  resolved : List Nat
  next : Nat

/-- `Shutdown::register` (src/shutdown.rs:18-25): enqueue a fresh sender
while the queue is alive, otherwise fire the new waiter immediately.
Returns the new waiter's id. -/
def Shutdown.register (s : Shutdown) : Shutdown × Nat :=
  match s.queue with
  | some q => ({ s with queue := some (q ++ [s.next]), next := s.next + 1 }, s.next)
  | none => ({ s with resolved := s.resolved ++ [s.next], next := s.next + 1 }, s.next)

/-- `Shutdown::shutdown` (src/shutdown.rs:27-34): take the queue; if it was
still alive, fire every queued sender; otherwise do nothing. -/
def Shutdown.shutdown (s : Shutdown) : Shutdown :=
  match s.queue with
  | some q => { queue := none, resolved := s.resolved ++ q, next := s.next }
  | none => s

/-- The message type of the task tracker channel (src/task_tracker.rs:16-19). -/
inductive TaskState where
  | Starting
  | Ended
deriving DecidableEq

/-- The channel messages produced by the body a spawned task runs
(src/task_tracker.rs:36-42): `future.await` followed by sending `Ended`.
If the future panics, the send is never reached, so a panicked task
contributes no message. -/
def taskEndMessages (panicked : Bool) : List TaskState :=
  if panicked then [] else [TaskState.Ended]

/-- `TaskWaiter::wait` (src/task_tracker.rs:51-66) run against the queued
channel messages in order: `Starting` increments the counter, `Ended`
decrements it and the loop breaks when the counter hits zero.  Returns
`some leftover` with the unread messages when the wait completes, and
`none` when the messages are exhausted without completing (the real loop
would block on `recv` forever if no further message arrives). -/
def TaskWaiter.wait : Nat → List TaskState → Option (List TaskState)
  | _, [] => none
  | counter, .Starting :: rest => TaskWaiter.wait (counter + 1) rest
  | counter, .Ended :: rest =>
    if counter - 1 = 0 then some rest else TaskWaiter.wait (counter - 1) rest

/-- A fresh `UpdateStream` as built by `Bot::get_updates` (src/bot.rs:49-57). -/
def streamInit : UpdateStream :=
  { update_id := none, buffer := [], current_request := false
    stop_signal_fired := false, fetches := [] }

/-- A stream whose cursor is at 40, used for the recovery claims. -/
def streamAt40 : UpdateStream := { streamInit with update_id := some 40 }

/-- A fresh `BotRun` as built by `run` (src/bot_runner.rs:51-59). -/
def botInit : BotRun :=
  { stream := streamInit, retried := 0, delay := none
    handled := [], reported := [], delays := [] }

/-- The recovery-shaped JSON of claim C2: `\x7b"ok":true,"result":[\x7b"id":42\x7d]\x7d`,
whose sole result element carries an `id` field rather than `update_id`. -/
def jsonIdOnly : Json :=
  .obj [("ok", .bool true), ("result", .arr [.obj [("id", .int 42)]])]

/-- The same response with the field the code actually reads:
`\x7b"ok":true,"result":[\x7b"update_id":42\x7d]\x7d`. -/
def jsonUpdateIdOnly : Json :=
  .obj [("ok", .bool true), ("result", .arr [.obj [("update_id", .int 42)]])]

/-! Basic lemmas about the cursor order and the request bookkeeping. -/

theorem cursorLe_refl (a : Option Int) : cursorLe a a := by
  cases a <;> simp [cursorLe]

theorem cursorLe_trans : ∀ {a b c : Option Int}, cursorLe a b → cursorLe b c → cursorLe a c := by
  intro a b c h1 h2
  cases a with
  | none => simp [cursorLe]
  | some x =>
    cases b with
    | none => exact absurd h1 (by simp [cursorLe])
    | some y =>
      cases c with
      | none => exact absurd h2 (by simp [cursorLe])
      | some z =>
        simp [cursorLe] at h1 h2 ⊢
        omega

theorem issueRequest_update_id (s : UpdateStream) :
    s.issueRequest.update_id = s.update_id := by
  unfold UpdateStream.issueRequest
  split <;> rfl

theorem issueRequest_buffer (s : UpdateStream) :
    s.issueRequest.buffer = s.buffer := by
  unfold UpdateStream.issueRequest
  split <;> rfl

theorem issueRequest_stop (s : UpdateStream) :
    s.issueRequest.stop_signal_fired = s.stop_signal_fired := by
  unfold UpdateStream.issueRequest
  split <;> rfl

/-! Shape lemmas for `UpdateStream.pollLoop`, one per branch of the loop. -/

theorem pollLoop_buffer (s : UpdateStream) (u : Update) (r : List Update)
    (oracle : List ReqPoll) (hb : s.buffer = u :: r) :
    s.pollLoop oracle = some ({ s with buffer := r }, .readySome u, oracle) := by
  cases oracle <;> (simp only [UpdateStream.pollLoop]; rw [hb])

theorem pollLoop_nilOracle (s : UpdateStream) (hb : s.buffer = []) :
    s.pollLoop [] = none := by
  simp only [UpdateStream.pollLoop]
  rw [hb]

theorem pollLoop_notReady (s : UpdateStream) (rest : List ReqPoll) (hb : s.buffer = []) :
    s.pollLoop (.notReady :: rest) = some (s.issueRequest, .notReady, rest) := by
  simp only [UpdateStream.pollLoop]
  rw [hb]

theorem pollLoop_inner (s : UpdateStream) (e : Error) (rest : List ReqPoll)
    (hb : s.buffer = []) :
    s.pollLoop (.inner e :: rest) =
      some (UpdateStream.may_recover_from_error
              { s.issueRequest with current_request := false } e, .err e, rest) := by
  simp only [UpdateStream.pollLoop]
  rw [hb]

theorem pollLoop_timer (s : UpdateStream) (rest : List ReqPoll) (hb : s.buffer = []) :
    s.pollLoop (.timer :: rest) =
      some ({ s.issueRequest with current_request := false }, .err .Timer, rest) := by
  simp only [UpdateStream.pollLoop]
  rw [hb]

theorem pollLoop_elapsed (s : UpdateStream) (rest : List ReqPoll) (hb : s.buffer = []) :
    s.pollLoop (.elapsed :: rest) =
      UpdateStream.pollLoop { s.issueRequest with current_request := false } rest := by
  simp only [UpdateStream.pollLoop]
  rw [hb]

theorem pollLoop_ready (s : UpdateStream) (us : List Update) (rest : List ReqPoll)
    (hb : s.buffer = []) :
    s.pollLoop (.ready us :: rest) =
      UpdateStream.pollLoop
        { (match us.getLast? with
           | some last => s.issueRequest.bump_update_id last.update_id
           | none => s.issueRequest) with buffer := us, current_request := false } rest := by
  simp only [UpdateStream.pollLoop]
  rw [hb]

/-! Lemmas on the cursor-advancing ids of an oracle. -/

theorem advIds_cons_none (o : ReqPoll) (rest : List ReqPoll) (h : advId o = none) :
    advIds (o :: rest) = advIds rest := by
  simp [advIds, List.filterMap_cons, h]

theorem advIds_cons_some (o : ReqPoll) (rest : List ReqPoll) (i : Int)
    (h : advId o = some i) : advIds (o :: rest) = i :: advIds rest := by
  simp [advIds, List.filterMap_cons, h]

/-- Core monotonicity of the fetch loop: provided the advancing ids carried
by the oracle are strictly increasing and at least the initial cursor (the
upstream long-poll contract), the cursor never decreases across one call of
the loop. -/
theorem pollLoop_mono (oracle : List ReqPoll) :
    ∀ (s s' : UpdateStream) (out : PollOut) (rest : List ReqPoll),
      s.pollLoop oracle = some (s', out, rest) →
      (advIds oracle).Pairwise (fun a b => a < b) →
      (∀ i ∈ advIds oracle, ∀ c : Int, s.update_id = some c → c ≤ i) →
      cursorLe s.update_id s'.update_id := by
  induction oracle with
  | nil =>
    intro s s' out rest h _ _
    cases hb : s.buffer with
    | nil => rw [pollLoop_nilOracle s hb] at h; cases h
    | cons u r =>
      rw [pollLoop_buffer s u r [] hb] at h
      simp only [Option.some.injEq, Prod.mk.injEq] at h
      obtain ⟨h1, -, -⟩ := h
      subst h1
      exact cursorLe_refl _
  | cons o rest' ih =>
    intro s s' out rest h hpw hge
    cases hb : s.buffer with
    | cons u r =>
      rw [pollLoop_buffer s u r (o :: rest') hb] at h
      simp only [Option.some.injEq, Prod.mk.injEq] at h
      obtain ⟨h1, -, -⟩ := h
      subst h1
      exact cursorLe_refl _
    | nil =>
      cases o with
      | notReady =>
        rw [pollLoop_notReady s rest' hb] at h
        simp only [Option.some.injEq, Prod.mk.injEq] at h
        obtain ⟨h1, -, -⟩ := h
        subst h1
        rw [issueRequest_update_id]
        exact cursorLe_refl _
      | timer =>
        rw [pollLoop_timer s rest' hb] at h
        simp only [Option.some.injEq, Prod.mk.injEq] at h
        obtain ⟨h1, -, -⟩ := h
        subst h1
        show cursorLe s.update_id s.issueRequest.update_id
        rw [issueRequest_update_id]
        exact cursorLe_refl _
      | inner e =>
        rw [pollLoop_inner s e rest' hb] at h
        simp only [Option.some.injEq, Prod.mk.injEq] at h
        obtain ⟨h1, -, -⟩ := h
        subst h1
        unfold UpdateStream.may_recover_from_error
        cases hr : recoverId e with
        | none =>
          show cursorLe s.update_id s.issueRequest.update_id
          rw [issueRequest_update_id]
          exact cursorLe_refl _
        | some v =>
          have hadv : advId (ReqPoll.inner e) = some v := by simp [advId, hr]
          rw [advIds_cons_some _ _ _ hadv] at hge
          show cursorLe s.update_id (some (v + 1))
          cases hc : s.update_id with
          | none => exact trivial
          | some c =>
            have hcv := hge v (List.mem_cons_self _ _) c hc
            show c ≤ v + 1
            omega
      | elapsed =>
        rw [pollLoop_elapsed s rest' hb] at h
        have hadv : advIds (ReqPoll.elapsed :: rest') = advIds rest' :=
          advIds_cons_none _ _ (by simp [advId])
        rw [hadv] at hpw hge
        have hge' : ∀ i ∈ advIds rest', ∀ c : Int,
            ({ s.issueRequest with current_request := false } : UpdateStream).update_id
              = some c → c ≤ i := by
          intro i hi c hc
          apply hge i hi c
          rw [← issueRequest_update_id s]
          exact hc
        have hm := ih { s.issueRequest with current_request := false } s' out rest h hpw hge'
        have hm' : cursorLe s.issueRequest.update_id s'.update_id := hm
        rw [issueRequest_update_id] at hm'
        exact hm'
      | ready us =>
        rw [pollLoop_ready s us rest' hb] at h
        cases hl : us.getLast? with
        | none =>
          rw [hl] at h
          have hadv : advIds (ReqPoll.ready us :: rest') = advIds rest' :=
            advIds_cons_none _ _ (by simp [advId, hl])
          rw [hadv] at hpw hge
          have hge' : ∀ i ∈ advIds rest', ∀ c : Int,
              ({ s.issueRequest with buffer := us, current_request := false }
                : UpdateStream).update_id = some c → c ≤ i := by
            intro i hi c hc
            apply hge i hi c
            rw [← issueRequest_update_id s]
            exact hc
          have hm := ih { s.issueRequest with buffer := us, current_request := false }
            s' out rest h hpw hge'
          have hm' : cursorLe s.issueRequest.update_id s'.update_id := hm
          rw [issueRequest_update_id] at hm'
          exact hm'
        | some last =>
          rw [hl] at h
          have hadv : advId (ReqPoll.ready us) = some last.update_id := by
            simp [advId, hl]
          rw [advIds_cons_some _ _ _ hadv] at hpw hge
          rw [List.pairwise_cons] at hpw
          obtain ⟨hhead, hpw'⟩ := hpw
          have hge' : ∀ i ∈ advIds rest', ∀ c : Int,
              ({ s.issueRequest.bump_update_id last.update_id with
                  buffer := us, current_request := false } : UpdateStream).update_id
                = some c → c ≤ i := by
            intro i hi c hc
            have hc2 : some (last.update_id + 1) = some c := hc
            have hlt := hhead i hi
            injection hc2 with hc3
            omega
          have hm := ih { s.issueRequest.bump_update_id last.update_id with
              buffer := us, current_request := false } s' out rest h hpw' hge'
          have hm' : cursorLe (some (last.update_id + 1)) s'.update_id := hm
          have hfront : cursorLe s.update_id (some (last.update_id + 1)) := by
            cases hc : s.update_id with
            | none => exact trivial
            | some c =>
              have hcv := hge last.update_id (List.mem_cons_self _ _) c hc
              show c ≤ last.update_id + 1
              omega
          exact cursorLe_trans hfront hm'

/-- Monotonicity lifted to `UpdateStream.poll` (the stopped stream returns
itself unchanged). -/
theorem poll_mono (s : UpdateStream) (oracle : List ReqPoll) (s' : UpdateStream)
    (out : PollOut) (rest : List ReqPoll)
    (h : s.poll oracle = some (s', out, rest))
    (hpw : (advIds oracle).Pairwise (fun a b => a < b))
    (hge : ∀ i ∈ advIds oracle, ∀ c : Int, s.update_id = some c → c ≤ i) :
    cursorLe s.update_id s'.update_id := by
  unfold UpdateStream.poll at h
  split at h
  · simp only [Option.some.injEq, Prod.mk.injEq] at h
    obtain ⟨h1, -, -⟩ := h
    subst h1
    exact cursorLe_refl _
  · exact pollLoop_mono oracle s s' out rest h hpw hge

/-! Shape lemmas for `UpdateStream.poll` and `BotRun.poll`. -/

theorem poll_of_not_stopped (s : UpdateStream) (oracle : List ReqPoll)
    (hs : s.stop_signal_fired = false) : s.poll oracle = s.pollLoop oracle := by
  unfold UpdateStream.poll
  rw [hs]
  rfl

theorem poll_stopped (s : UpdateStream) (oracle : List ReqPoll)
    (hs : s.stop_signal_fired = true) :
    s.poll oracle = some (s, .readyNone, oracle) := by
  unfold UpdateStream.poll
  rw [hs]
  rfl

theorem delay_secs_eq (r : Nat) (h : r < 13) : delay_secs r = 2 ^ r := by
  unfold delay_secs
  rw [Nat.shiftLeft_eq, one_mul]
  exact Nat.mod_eq_of_lt (Nat.pow_lt_pow_right one_lt_two (by omega))

theorem botPoll_err_under_cap (fuel : Nat) (b : BotRun) (e : Error) (rest : List ReqPoll)
    (hb : b.stream.buffer = []) (hs : b.stream.stop_signal_fired = false)
    (hr : b.retried < 13) :
    BotRun.poll (fuel + 1) b (.inner e :: rest) =
      some ({ b with
          stream := UpdateStream.may_recover_from_error
            { b.stream.issueRequest with current_request := false } e
          reported := b.reported ++ [e]
          delay := some (delay_secs b.retried)
          delays := b.delays ++ [delay_secs b.retried]
          retried := b.retried + 1 }, .notReady, rest) := by
  have hp : b.stream.poll (.inner e :: rest) =
      some (UpdateStream.may_recover_from_error
        { b.stream.issueRequest with current_request := false } e, .err e, rest) := by
    rw [poll_of_not_stopped _ _ hs]
    exact pollLoop_inner _ e rest hb
  simp only [BotRun.poll, hp]
  rw [if_neg (by omega : ¬ (13 ≤ b.retried))]

theorem botPoll_err_at_cap (fuel : Nat) (b : BotRun) (e : Error) (rest : List ReqPoll)
    (hb : b.stream.buffer = []) (hs : b.stream.stop_signal_fired = false)
    (hr : 13 ≤ b.retried) :
    BotRun.poll (fuel + 1) b (.inner e :: rest) =
      some ({ b with
          stream := UpdateStream.may_recover_from_error
            { b.stream.issueRequest with current_request := false } e
          reported := b.reported ++ [e] }, .fatal, rest) := by
  have hp : b.stream.poll (.inner e :: rest) =
      some (UpdateStream.may_recover_from_error
        { b.stream.issueRequest with current_request := false } e, .err e, rest) := by
    rw [poll_of_not_stopped _ _ hs]
    exact pollLoop_inner _ e rest hb
  simp only [BotRun.poll, hp]
  rw [if_pos (hr : 13 ≤ b.retried)]

theorem botPoll_stopped (fuel : Nat) (b : BotRun) (oracle : List ReqPoll)
    (h : b.stream.stop_signal_fired = true) :
    BotRun.poll (fuel + 1) b oracle = some ({ b with retried := 0 }, .done, oracle) := by
  have hp := poll_stopped b.stream oracle h
  simp only [BotRun.poll, hp]

theorem botPoll_deliver (fuel : Nat) (b : BotRun) (u : Update)
    (hb : b.stream.buffer = [u]) (hs : b.stream.stop_signal_fired = false) :
    BotRun.poll (fuel + 1 + 1) b [.notReady] =
      some ({ b with
          stream := ({ b.stream with buffer := [] } : UpdateStream).issueRequest
          retried := 0
          handled := b.handled ++ [u] }, .notReady, []) := by
  have hp1 : b.stream.poll [.notReady] =
      some ({ b.stream with buffer := [] }, .readySome u, [.notReady]) := by
    rw [poll_of_not_stopped _ _ hs]
    exact pollLoop_buffer _ u [] _ hb
  simp only [BotRun.poll, hp1]
  have hp2 : ({ b.stream with buffer := ([] : List Update) } : UpdateStream).poll [.notReady] =
      some (({ b.stream with buffer := [] } : UpdateStream).issueRequest, .notReady, []) := by
    rw [poll_of_not_stopped _ _
      (show ({ b.stream with buffer := ([] : List Update) }
        : UpdateStream).stop_signal_fired = false from hs)]
    exact pollLoop_notReady _ _ rfl
  simp only [BotRun.poll, hp2]

theorem botPoll_elapsed_notReady (fuel : Nat) (b : BotRun)
    (hb : b.stream.buffer = []) (hs : b.stream.stop_signal_fired = false) :
    BotRun.poll (fuel + 1) b [.elapsed, .notReady] =
      some ({ b with stream :=
          ({ b.stream.issueRequest with current_request := false }
            : UpdateStream).issueRequest }, .notReady, []) := by
  have hp : b.stream.poll [.elapsed, .notReady] =
      some (({ b.stream.issueRequest with current_request := false }
        : UpdateStream).issueRequest, .notReady, []) := by
    rw [poll_of_not_stopped _ _ hs, pollLoop_elapsed _ _ hb]
    apply pollLoop_notReady
    show b.stream.issueRequest.buffer = []
    rw [issueRequest_buffer]
    exact hb
  simp only [BotRun.poll, hp]

theorem issueRequest_of_pending (s : UpdateStream) (h : s.current_request = true) :
    s.issueRequest = s := by
  unfold UpdateStream.issueRequest
  rw [h]
  rfl

theorem issueRequest_of_idle (s : UpdateStream) (h : s.current_request = false) :
    s.issueRequest =
      { s with current_request := true, fetches := s.fetches ++ [mkFetch s] } := by
  unfold UpdateStream.issueRequest
  rw [h]
  rfl

theorem botPoll_emptyBatch_notReady (fuel : Nat) (b : BotRun)
    (hb : b.stream.buffer = []) (hs : b.stream.stop_signal_fired = false) :
    BotRun.poll (fuel + 1) b [.ready [], .notReady] =
      some ({ b with stream :=
          ({ b.stream.issueRequest with buffer := [], current_request := false }
            : UpdateStream).issueRequest }, .notReady, []) := by
  have hp : b.stream.poll [.ready [], .notReady] =
      some (({ b.stream.issueRequest with buffer := [], current_request := false }
        : UpdateStream).issueRequest, .notReady, []) := by
    rw [poll_of_not_stopped _ _ hs, pollLoop_ready _ _ _ hb]
    exact pollLoop_notReady _ _ rfl
  simp only [BotRun.poll, hp]

/-! Claim theorems. -/

/-- C1 (counterexample to the claim as stated): the cursor is not monotone
over arbitrary sequences of fetch outcomes.  Starting from a fresh stream,
a batch ending at id 10 moves the cursor to 11, but a following batch
ending at id 3 moves it back to 4: the recorded fetch offsets are
`[none, some 11, some 4]`, and `some 11 ≤ some 4` fails, so the cursor used
by the third fetch is smaller than the cursor used by the second. -/
theorem cursor_decrease_counterexample :
    ((UpdateStream.poll streamInit [.ready [Update.mk 10], .notReady]).bind (fun r =>
        (UpdateStream.poll r.1 [.ready [Update.mk 3], .notReady]).bind (fun r2 =>
          (UpdateStream.poll r2.1 [.notReady]).map (fun r3 =>
            r3.1.fetches.map FetchParams.offset))))
      = some [none, some 11, some 4]
    ∧ ¬ cursorLe (some 11) (some 4) := by
  constructor
  · rfl
  · intro hcon
    have h11 : (11 : Int) ≤ 4 := hcon
    omega

/-- C1 (amended): under the upstream long-poll contract — the advancing
ids carried by the outcomes (last id of each batch, recovery ids) are
strictly increasing and at least the current cursor — the cursor is
monotonically non-decreasing across any call of `UpdateStream::poll`;
every issued fetch uses exactly the current cursor as its offset; and a
non-empty batch or a successful recovery advances the cursor strictly. -/
theorem cursor_monotone_amended :
    (∀ (s : UpdateStream) (oracle : List ReqPoll) (s' : UpdateStream)
        (out : PollOut) (rest : List ReqPoll),
        s.poll oracle = some (s', out, rest) →
        (advIds oracle).Pairwise (fun a b => a < b) →
        (∀ i ∈ advIds oracle, ∀ c : Int, s.update_id = some c → c ≤ i) →
        cursorLe s.update_id s'.update_id)
    ∧ (∀ s : UpdateStream, (mkFetch s).offset = s.update_id)
    ∧ (∀ (s : UpdateStream) (v c : Int), s.update_id = some c → c ≤ v →
        (s.bump_update_id v).update_id = some (v + 1) ∧ c < v + 1)
    ∧ (∀ (s : UpdateStream) (e : Error) (v c : Int), recoverId e = some v →
        s.update_id = some c → c ≤ v →
        (s.may_recover_from_error e).update_id = some (v + 1) ∧ c < v + 1) := by
  refine ⟨poll_mono, fun s => rfl, ?_, ?_⟩
  · intro s v c _ hcv
    exact ⟨rfl, by omega⟩
  · intro s e v c hr _ hcv
    unfold UpdateStream.may_recover_from_error
    rw [hr]
    exact ⟨rfl, by omega⟩

/-- Witness for C1 (amended): the monotonicity applied to a stream at
cursor 40 receiving a batch ending at id 50, and the strict advance of a
bump from cursor 40 past id 50. -/
theorem cursor_monotone_amended_witness :
    cursorLe streamAt40.update_id (some 51)
    ∧ ((streamAt40.bump_update_id 50).update_id = some 51 ∧ (40 : Int) < 51) := by
  constructor
  · exact cursor_monotone_amended.1 streamAt40
      [.ready [Update.mk 50], .notReady]
      { update_id := some 51, buffer := [], current_request := false
        stop_signal_fired := false
        fetches := [{ offset := some 40, timeout := 5, client_timeout_secs := 5 }] }
      (.readySome (Update.mk 50)) [.notReady] rfl
      (by simp [advIds, advId, List.filterMap_cons])
      (by simp [advIds, advId, List.filterMap_cons, streamAt40, streamInit])
  · exact cursor_monotone_amended.2.2.1 streamAt40 50 40 rfl (by omega)

/-- C2 (counterexample to the claim as stated): the recovery parse looks
for the field `update_id`, not `id`.  On the response
`\x7b"ok":true,"result":[\x7b"id":42\x7d]\x7d` of the claim, no id is extracted and
the cursor stays at 40 instead of advancing to 43. -/
theorem recover_wrong_field_counterexample :
    recoverId (Error.Parse (some jsonIdOnly)) = none
    ∧ (UpdateStream.may_recover_from_error streamAt40
        (Error.Parse (some jsonIdOnly))).update_id = some 40
    ∧ some (40 : Int) ≠ some (43 : Int) := by
  refine ⟨rfl, rfl, by decide⟩

/-- C2 (amended): for a response that fails typed decoding but
generic-parses to `\x7b"ok":true,"result":[\x7b"update_id":42\x7d]\x7d`, the cursor is
advanced to 43 by the recovery path and the error is still surfaced to the
caller (`PollOut.err`), so the offending batch is not re-fetched. -/
theorem recover_advances_amended :
    UpdateStream.poll streamAt40 [ReqPoll.inner (Error.Parse (some jsonUpdateIdOnly))]
      = some ({ update_id := some 43, buffer := [], current_request := false
                stop_signal_fired := false
                fetches := [{ offset := some 40, timeout := 5, client_timeout_secs := 5 }] },
          PollOut.err (Error.Parse (some jsonUpdateIdOnly)), []) := by
  rfl

/-- C3 (counterexample to the claim as stated): a transport-level failure
(`Error::Request`, a `FatalError` in the spec's classification) at retry
count 0 does not terminate the loop: the runner reports it, schedules a
backoff delay of 1 second and continues (`notReady`), so backoff is applied
and further fetches will be issued. -/
theorem transport_error_retried_counterexample :
    (BotRun.poll 2 botInit [ReqPoll.inner Error.Request]).map
        (fun p => (p.1.delay, p.1.retried, isFatal p.2.1))
      = some (some 1, 1, false) := by
  rfl

/-- C3 (amended): an error outcome is terminal exactly when the retry
budget is exhausted (`retried ≥ 13`): then the error is still reported and
the loop ends (`fatal`) with no backoff scheduled; any error below the
cap — regardless of its kind — is retried after a scheduled backoff. -/
theorem fatal_only_at_cap_amended :
    (∀ (fuel : Nat) (b : BotRun) (e : Error) (rest : List ReqPoll),
        b.stream.buffer = [] → b.stream.stop_signal_fired = false → 13 ≤ b.retried →
        ∃ b', BotRun.poll (fuel + 1) b (.inner e :: rest) = some (b', .fatal, rest)
          ∧ b'.reported = b.reported ++ [e]
          ∧ b'.delay = b.delay ∧ b'.delays = b.delays ∧ b'.retried = b.retried)
    ∧ (∀ (fuel : Nat) (b : BotRun) (e : Error) (rest : List ReqPoll),
        b.stream.buffer = [] → b.stream.stop_signal_fired = false → b.retried < 13 →
        ∃ b', BotRun.poll (fuel + 1) b (.inner e :: rest) = some (b', .notReady, rest)
          ∧ b'.delay = some (delay_secs b.retried) ∧ b'.retried = b.retried + 1) := by
  constructor
  · intro fuel b e rest hb hs hr
    exact ⟨_, botPoll_err_at_cap fuel b e rest hb hs hr, rfl, rfl, rfl, rfl⟩
  · intro fuel b e rest hb hs hr
    exact ⟨_, botPoll_err_under_cap fuel b e rest hb hs hr, rfl, rfl⟩

/-- Witness for C3 (amended): a runner that has already retried 13 times
terminates fatally on the next error, with no backoff scheduled. -/
theorem fatal_only_at_cap_witness :
    ∃ b', BotRun.poll 1 { botInit with retried := 13 } [ReqPoll.inner Error.Api]
        = some (b', RunOut.fatal, [])
      ∧ b'.reported = ({ botInit with retried := 13 } : BotRun).reported ++ [Error.Api]
      ∧ b'.delay = ({ botInit with retried := 13 } : BotRun).delay
      ∧ b'.delays = ({ botInit with retried := 13 } : BotRun).delays
      ∧ b'.retried = ({ botInit with retried := 13 } : BotRun).retried :=
  fatal_only_at_cap_amended.1 0 { botInit with retried := 13 } Error.Api [] rfl rfl
    (by decide)

/-- C4: `1 << retried` equals `2 ^ retried` with no `usize` overflow for
every retry count below the cap of 13; an error at count `r < 13` schedules
exactly that delay and increments the count; the error arriving at count 13
(the 14th consecutive error) is terminal with no further delay scheduled;
and the concrete 14-error run schedules exactly the delays
`2^0 … 2^12` before terminating fatally at count 13. -/
theorem backoff_contract :
    (∀ r : Nat, r < 13 → delay_secs r = 2 ^ r)
    ∧ (∀ (fuel : Nat) (b : BotRun) (e : Error) (rest : List ReqPoll),
        b.stream.buffer = [] → b.stream.stop_signal_fired = false → b.retried < 13 →
        ∃ b', BotRun.poll (fuel + 1) b (.inner e :: rest) = some (b', .notReady, rest)
          ∧ b'.delay = some (2 ^ b.retried)
          ∧ b'.delays = b.delays ++ [2 ^ b.retried]
          ∧ b'.retried = b.retried + 1)
    ∧ (∀ (fuel : Nat) (b : BotRun) (e : Error) (rest : List ReqPoll),
        b.stream.buffer = [] → b.stream.stop_signal_fired = false → 13 ≤ b.retried →
        ∃ b', BotRun.poll (fuel + 1) b (.inner e :: rest) = some (b', .fatal, rest)
          ∧ b'.delay = b.delay ∧ b'.delays = b.delays)
    ∧ (BotRun.runRounds botInit (List.replicate 14 [ReqPoll.inner Error.Api])).map
        (fun p => (p.1.delays, p.1.retried, isFatal p.2))
      = some ([1, 2, 4, 8, 16, 32, 64, 128, 256, 512, 1024, 2048, 4096], 13, true) := by
  refine ⟨delay_secs_eq, ?_, ?_, by rfl⟩
  · intro fuel b e rest hb hs hr
    refine ⟨_, botPoll_err_under_cap fuel b e rest hb hs hr, ?_, ?_, rfl⟩
    · show some (delay_secs b.retried) = some (2 ^ b.retried)
      rw [delay_secs_eq b.retried hr]
    · show b.delays ++ [delay_secs b.retried] = b.delays ++ [2 ^ b.retried]
      rw [delay_secs_eq b.retried hr]
  · intro fuel b e rest hb hs hr
    exact ⟨_, botPoll_err_at_cap fuel b e rest hb hs hr, rfl, rfl⟩

/-- Witness for C4: the shift has no overflow at the largest retried count
that schedules a delay, and a fresh runner schedules `2^0` on its first
error. -/
theorem backoff_contract_witness :
    delay_secs 12 = 2 ^ 12
    ∧ ∃ b', BotRun.poll 1 botInit [ReqPoll.inner Error.Request]
        = some (b', RunOut.notReady, [])
      ∧ b'.delay = some (2 ^ botInit.retried)
      ∧ b'.delays = botInit.delays ++ [2 ^ botInit.retried]
      ∧ b'.retried = botInit.retried + 1 :=
  ⟨backoff_contract.1 12 (by decide),
   backoff_contract.2.1 0 botInit Error.Request [] rfl rfl (by decide)⟩

/-- C5 (counterexample to the claim as stated): after one recoverable
error (`retried = 1`), a long-poll timeout outcome — and likewise an empty
successful batch — leaves the retry counter at 1; the claimed reset to 0
does not happen, because the runner only observes `NotReady` for those
outcomes. -/
theorem retry_reset_counterexample :
    (BotRun.runRounds botInit [[.inner .Api], [.elapsed, .notReady]]).map
        (fun p => p.1.retried) = some 1
    ∧ (BotRun.runRounds botInit [[.inner .Api], [.ready [], .notReady]]).map
        (fun p => p.1.retried) = some 1
    ∧ (1 : Nat) ≠ 0 :=
  ⟨rfl, rfl, by decide⟩

/-- C5 (amended): the retry counter is reset to zero exactly when the
stream yields a value to the runner — a delivered update (which requires a
non-empty batch) or end of stream; a timeout outcome and an empty batch
are absorbed inside the stream, surface as `NotReady`, and leave the
counter unchanged; any surfaced error below the cap increments it. -/
theorem retry_reset_amended :
    (∀ (fuel : Nat) (b : BotRun) (u : Update),
        b.stream.buffer = [u] → b.stream.stop_signal_fired = false →
        ∃ b', BotRun.poll (fuel + 1 + 1) b [.notReady] = some (b', .notReady, [])
          ∧ b'.retried = 0 ∧ b'.handled = b.handled ++ [u])
    ∧ (∀ (fuel : Nat) (b : BotRun) (oracle : List ReqPoll),
        b.stream.stop_signal_fired = true →
        BotRun.poll (fuel + 1) b oracle = some ({ b with retried := 0 }, .done, oracle))
    ∧ (∀ (fuel : Nat) (b : BotRun), b.stream.buffer = [] →
        b.stream.stop_signal_fired = false →
        ∃ b', BotRun.poll (fuel + 1) b [.elapsed, .notReady] = some (b', .notReady, [])
          ∧ b'.retried = b.retried)
    ∧ (∀ (fuel : Nat) (b : BotRun), b.stream.buffer = [] →
        b.stream.stop_signal_fired = false →
        ∃ b', BotRun.poll (fuel + 1) b [.ready [], .notReady] = some (b', .notReady, [])
          ∧ b'.retried = b.retried)
    ∧ (∀ (fuel : Nat) (b : BotRun) (e : Error) (rest : List ReqPoll),
        b.stream.buffer = [] → b.stream.stop_signal_fired = false → b.retried < 13 →
        ∃ b', BotRun.poll (fuel + 1) b (.inner e :: rest) = some (b', .notReady, rest)
          ∧ b'.retried = b.retried + 1) := by
  refine ⟨?_, ?_, ?_, ?_, ?_⟩
  · intro fuel b u hb hs
    exact ⟨_, botPoll_deliver fuel b u hb hs, rfl, rfl⟩
  · intro fuel b oracle hstop
    exact botPoll_stopped fuel b oracle hstop
  · intro fuel b hb hs
    exact ⟨_, botPoll_elapsed_notReady fuel b hb hs, rfl⟩
  · intro fuel b hb hs
    exact ⟨_, botPoll_emptyBatch_notReady fuel b hb hs, rfl⟩
  · intro fuel b e rest hb hs hr
    exact ⟨_, botPoll_err_under_cap fuel b e rest hb hs hr, rfl⟩

/-- Witness for C5 (amended): a runner at retry count 7 with one buffered
update resets to 0 when the update is delivered, and a runner at retry
count 5 keeps its count across a timeout outcome. -/
theorem retry_reset_amended_witness :
    (∃ b', BotRun.poll 2
          { botInit with stream := { streamInit with buffer := [Update.mk 9] }, retried := 7 }
          [ReqPoll.notReady]
        = some (b', RunOut.notReady, [])
      ∧ b'.retried = 0
      ∧ b'.handled = ({ botInit with
          stream := { streamInit with buffer := [Update.mk 9] },
          retried := 7 } : BotRun).handled ++ [Update.mk 9])
    ∧ ∃ b', BotRun.poll 1 { botInit with retried := 5 } [ReqPoll.elapsed, ReqPoll.notReady]
        = some (b', RunOut.notReady, [])
      ∧ b'.retried = ({ botInit with retried := 5 } : BotRun).retried :=
  ⟨retry_reset_amended.1 0 _ (Update.mk 9) rfl rfl,
   retry_reset_amended.2.2.1 0 { botInit with retried := 5 } rfl rfl⟩

/-- C6: an elapsed long-poll window is absorbed silently.  At the stream
level, with an outstanding request whose poll reports `elapsed`, the loop
immediately issues a new fetch whose offset is the unchanged cursor, and no
error is surfaced (the result is `notReady`, not `err`).  At the runner
level the retry counter is not incremented, no error is reported, and the
cursor is unchanged. -/
theorem timeout_absorbed :
    (∀ s : UpdateStream, s.buffer = [] → s.stop_signal_fired = false →
        s.current_request = true →
        s.poll [.elapsed, .notReady]
          = some ({ s with
                    current_request := true
                    fetches := s.fetches ++ [mkFetch { s with current_request := false }] },
              .notReady, [])
        ∧ (mkFetch { s with current_request := false }).offset = s.update_id)
    ∧ (∀ (fuel : Nat) (b : BotRun), b.stream.buffer = [] →
        b.stream.stop_signal_fired = false →
        ∃ b', BotRun.poll (fuel + 1) b [.elapsed, .notReady] = some (b', .notReady, [])
          ∧ b'.retried = b.retried ∧ b'.reported = b.reported
          ∧ b'.stream.update_id = b.stream.update_id) := by
  constructor
  · intro s hb hs hc
    constructor
    · rw [poll_of_not_stopped _ _ hs, pollLoop_elapsed _ _ hb, issueRequest_of_pending s hc]
      rw [pollLoop_notReady _ _
        (show ({ s with current_request := false } : UpdateStream).buffer = [] from hb)]
      rw [issueRequest_of_idle _ rfl]
    · rfl
  · intro fuel b hb hs
    refine ⟨_, botPoll_elapsed_notReady fuel b hb hs, rfl, rfl, ?_⟩
    rw [issueRequest_update_id ({ b.stream.issueRequest with current_request := false }
      : UpdateStream)]
    show b.stream.issueRequest.update_id = b.stream.update_id
    exact issueRequest_update_id _

/-- Witness for C6: a fresh runner at retry count 4 polls through a
timeout outcome with nothing surfaced and its state intact. -/
theorem timeout_absorbed_witness :
    ∃ b', BotRun.poll 1 { botInit with retried := 4 } [ReqPoll.elapsed, ReqPoll.notReady]
        = some (b', RunOut.notReady, [])
      ∧ b'.retried = ({ botInit with retried := 4 } : BotRun).retried
      ∧ b'.reported = ({ botInit with retried := 4 } : BotRun).reported
      ∧ b'.stream.update_id = ({ botInit with retried := 4 } : BotRun).stream.update_id :=
  timeout_absorbed.2 0 { botInit with retried := 4 } rfl rfl

/-- C7 (counterexample to the claim as stated): the client-side timeout is
not strictly greater than the server-requested long-poll window — both are
`TELEGRAM_TIMEOUT_SECS` (5 seconds), so the margin is zero. -/
theorem timeout_margin_counterexample :
    ¬ ((mkFetch streamInit).client_timeout_secs > (mkFetch streamInit).timeout) := by
  decide

/-- C7 (amended): for every fetch the loop builds, the client-side timeout
equals the server-requested long-poll window (both `TELEGRAM_TIMEOUT_SECS`
= 5 seconds); the client timeout is therefore `≥` but not `>` the server
window. -/
theorem client_timeout_equals_window :
    ∀ s : UpdateStream,
      (mkFetch s).client_timeout_secs = (mkFetch s).timeout
      ∧ (mkFetch s).timeout = TELEGRAM_TIMEOUT_SECS
      ∧ (mkFetch s).client_timeout_secs ≥ (mkFetch s).timeout :=
  fun _ => ⟨rfl, rfl, Nat.le_refl _⟩

/-- C8: the shutdown broadcaster.  A waiter registered after shutdown has
fired resolves immediately; a second call to `shutdown` is a no-op; and a
single `shutdown` call resolves every previously registered waiter. -/
theorem shutdown_broadcaster_ok :
    (∀ s : Shutdown, s.queue = none → (s.register).2 ∈ (s.register).1.resolved)
    ∧ (∀ s : Shutdown, s.shutdown.shutdown = s.shutdown)
    ∧ (∀ (s : Shutdown) (q : List Nat), s.queue = some q →
        ∀ i ∈ q, i ∈ s.shutdown.resolved) := by
  refine ⟨?_, ?_, ?_⟩
  · intro s h
    unfold Shutdown.register
    rw [h]
    simp
  · intro s
    cases hq : s.queue with
    | some q => simp [Shutdown.shutdown, hq]
    | none => simp [Shutdown.shutdown, hq]
  · intro s q h i hi
    unfold Shutdown.shutdown
    rw [h]
    simp
    exact Or.inr hi

/-- Witness for C8: with shutdown already fired, a new waiter is resolved
at once, and firing a queued broadcaster resolves the queued waiter 5. -/
theorem shutdown_broadcaster_witness :
    ((Shutdown.mk none [] 0).register).2 ∈ ((Shutdown.mk none [] 0).register).1.resolved
    ∧ (Shutdown.mk (some [5]) [] 6).shutdown.shutdown
        = (Shutdown.mk (some [5]) [] 6).shutdown
    ∧ (5 : Nat) ∈ (Shutdown.mk (some [5]) [] 6).shutdown.resolved :=
  ⟨shutdown_broadcaster_ok.1 _ rfl,
   shutdown_broadcaster_ok.2.1 _,
   shutdown_broadcaster_ok.2.2 _ [5] rfl 5 (by simp)⟩

/-- C9 (the code contradicts the claim; the claim matches the intended
drain semantics).  First conjunct: with two spawned tasks, if task 1
completes before task 2's `Starting` message is enqueued (queue order
`Starting, Ended, Starting`), `wait` sees the counter touch zero and
returns while the second task — whose `Starting` is still unread — is
still running, so `wait` completes before all spawned tasks have.  Second
conjunct: a panicking task never sends `Ended` (there is no scoped/deferred
release), so after its `Starting` the wait never completes (hangs). -/
theorem task_waiter_premature_completion :
    TaskWaiter.wait 0 [TaskState.Starting, TaskState.Ended, TaskState.Starting]
        = some [TaskState.Starting]
    ∧ TaskWaiter.wait 0 (TaskState.Starting :: taskEndMessages true) = none :=
  ⟨rfl, rfl⟩

/-- C10 (implicit): once the shutdown signal has fired, `UpdateStream::poll`
returns end-of-stream immediately with the state untouched — in particular
any events still in the internal buffer are never yielded — and no oracle
entry (no fetch activity) is consumed. -/
theorem shutdown_discards_buffer (s : UpdateStream) (oracle : List ReqPoll)
    (h : s.stop_signal_fired = true) :
    s.poll oracle = some (s, .readyNone, oracle) :=
  poll_stopped s oracle h

/-- Witness for C10: a stopped stream holding two undelivered buffered
updates ends immediately, discarding them. -/
theorem shutdown_discards_buffer_witness :
    UpdateStream.poll
        { streamInit with stop_signal_fired := true, buffer := [Update.mk 7, Update.mk 8] }
        [ReqPoll.notReady]
      = some ({ streamInit with
                stop_signal_fired := true
                buffer := [Update.mk 7, Update.mk 8] },
          PollOut.readyNone, [ReqPoll.notReady]) :=
  shutdown_discards_buffer _ _ rfl
